import Mathlib

/-!
Shallow embedding of `src/main.py` of FWEQ/CONFUPR2: a JSON configuration
loader/validator.  Python/JSON values are modelled by the inductive `PyVal`;
Python floats are modelled as rationals (every numeric literal relevant here,
such as 3.0 or 3.5, is exactly representable); Python dicts are association
lists in insertion order with first-match lookup (keys coming from a parsed
JSON object are unique, so first-match agrees with Python's dict).  Fallible
Python code (functions that may raise `ConfigError`) returns `Except`.
The file system and the JSON parser behind `load_json` are abstracted as a
`FileInput` describing what `os.path.exists` and `json.load` yield for the
given path; everything downstream of that is translated from the source.
-/

namespace ConfUpr

/-- A Python value as produced by `json.load` (and the coerced values that the
validator stores).  `float` carries a rational: the modelling choice for
Python floats. -/
inductive PyVal : Type where
  | null : PyVal
  | bool : Bool → PyVal
  | int : Int → PyVal
  | float : Rat → PyVal
  | str : String → PyVal
  | list : List PyVal → PyVal
  | dict : List (String × PyVal) → PyVal

/-- A Python dict over string keys, in insertion order. -/
abbrev PyDict := List (String × PyVal)

/-- `d[key]` lookup on the association-list model of a dict: first match. -/
def dictLookup : PyDict → String → Option PyVal
  | [], _ => Option.none
  | kv :: rest, key => if kv.1 = key then some kv.2 else dictLookup rest key

/-- `cfg[key]` where the presence check has already guaranteed the key is
there; defaults to `null` on the unreachable missing case. -/
def getItem (cfg : PyDict) (key : String) : PyVal :=
  (dictLookup cfg key).getD PyVal.null

/-- The `ConfigError` exception of main.py: carries its message. -/
structure ConfigError : Type where
  msg : String
deriving Repr, DecidableEq

/-- `EXPECTED_KEYS` of main.py, as the ordered key list (its dict iteration
order); the value types of that dict are never consulted by the code. -/
def EXPECTED_KEYS : List String :=
  ["package_name", "repo", "test_mode", "version", "max_depth"]

/-- Python `repr` of a value, as interpolated by `{value!r}` in the
`coerce_bool` error message (approximated for containers; exact for the
scalar shapes that reach it). -/
def pyRepr : PyVal → String
  | PyVal.null => "None"
  | PyVal.bool b => if b then "True" else "False"
  | PyVal.int n => toString n
  | PyVal.float q => toString q
  | PyVal.str s => "\x27" ++ s ++ "\x27"
  | PyVal.list _ => "[...]"
  | PyVal.dict _ => "\x7b...\x7d"

/-- Python `str()` of a value, as interpolated by the f-string in
`print_kv` (exact for the shapes a validated config stores). -/
def pyStr : PyVal → String
  | PyVal.null => "None"
  | PyVal.bool b => if b then "True" else "False"
  | PyVal.int n => toString n
  | PyVal.float q => toString q
  | PyVal.str s => s
  | PyVal.list _ => "[...]"
  | PyVal.dict _ => "\x7b...\x7d"

/-- The whitespace characters stripped by Python `str.strip` (ASCII part;
none of the inputs here carry Unicode whitespace). -/
def pyIsSpace (c : Char) : Bool :=
  c == ' ' || c == '\t' || c == '\n' || c == '\r' || c == '\x0b' || c == '\x0c'

/-- Python `str.strip()`: drop leading and trailing whitespace. -/
def pyStrip (s : String) : String :=
  String.mk (((s.data.dropWhile pyIsSpace).reverse.dropWhile pyIsSpace).reverse)

/-- Python `str.lower()` (ASCII; the recognized boolean tokens are ASCII). -/
def pyLower (s : String) : String :=
  String.mk (s.data.map Char.toLower)

/-- Message of the `coerce_bool` failure (main.py line 45). -/
def boolErrMsg (value : PyVal) : String :=
  "Невозможно привести к булеву типу: " ++ pyRepr value

/-- `coerce_bool` (main.py lines 34-45).  A native bool is returned as is;
an int or float is sent through Python truthiness (nonzero test); a string
is stripped, lowercased and matched against the two token sets; everything
else falls through to the raise. -/
def coerce_bool (value : PyVal) : Except ConfigError Bool :=
  match value with
  | PyVal.bool b => Except.ok b
  | PyVal.int n => Except.ok (decide (n ≠ 0))
  | PyVal.float q => Except.ok (decide (q ≠ 0))
  | PyVal.str s =>
      let v := pyLower (pyStrip s)
      if v = "true" ∨ v = "yes" ∨ v = "1" then Except.ok true
      else if v = "false" ∨ v = "no" ∨ v = "0" then Except.ok false
      else Except.error ⟨boolErrMsg value⟩
  | _ => Except.error ⟨boolErrMsg value⟩

/-- Python `str.isdigit` on the strings relevant here: nonempty and all
characters decimal digits. -/
def pyIsdigit (s : String) : Bool :=
  !s.data.isEmpty && s.data.all (fun c => c.isDigit)

/-- Python `int(s)` on a digit-only string. -/
def digitStrToNat (s : String) : Nat :=
  s.data.foldl (fun n c => n * 10 + (c.toNat - 48)) 0

/-- Message of the missing-key failure (main.py line 53). -/
def missingFieldMsg (key : String) : String :=
  "Отсутствует обязательный параметр: \x27" ++ key ++ "\x27"

/-- Message for a bad `package_name` (line 58). -/
def pnameMsg : String := "package_name должен быть непустой строкой."

/-- Message for a bad `repo` (line 64). -/
def repoMsg : String :=
  "repo должен быть непустой строкой (URL или путь к тестовому репозиторию)."

/-- Message for a bad `version` (line 76). -/
def versionMsg : String := "version должен быть непустой строкой."

/-- Message for a `max_depth` of the wrong shape (line 85). -/
def maxDepthTypeMsg : String := "max_depth должен быть целым числом >= 1."

/-- Message for a `max_depth` below the bound (line 87). -/
def maxDepthRangeMsg : String := "max_depth должен быть >= 1."

/-- The string-field pattern shared by `package_name`, `repo` and `version`
(lines 56-59, 62-65, 74-76): `not isinstance(v, str) or not v.strip()`
raises the given message, otherwise the stripped string is the result. -/
def checkNonemptyString (v : PyVal) (msg : String) : Except ConfigError String :=
  match v with
  | PyVal.str s =>
      if pyStrip s = "" then Except.error ⟨msg⟩ else Except.ok (pyStrip s)
  | _ => Except.error ⟨msg⟩

/-- The int/float/digit-string analysis of `max_depth` (lines 80-84),
yielding `int(md)` when the shape is accepted.  A Python bool is an int
(`isinstance(True, int)` holds), and `float(b)` is 1.0 or 0.0, always
integral, with `int(b)` 1 or 0; `float(n)` of an int is integral; a float
is integral exactly when its denominator is 1, and `int` of it is then its
numerator; a string is accepted when its strip is digit-only. -/
def maxDepthCoerce : PyVal → Option Int
  | PyVal.bool b => some (if b then 1 else 0)
  | PyVal.int n => some n
  | PyVal.float q => if q.den = 1 then some q.num else Option.none
  | PyVal.str s =>
      if pyIsdigit (pyStrip s) then some ((digitStrToNat (pyStrip s) : Int))
      else Option.none
  | _ => Option.none

/-- Lines 78-88 of main.py as a function of the `max_depth` value: shape
analysis, then the `>= 1` bound. -/
def coerce_max_depth (md : PyVal) : Except ConfigError Int :=
  match maxDepthCoerce md with
  | some i => if i < 1 then Except.error ⟨maxDepthRangeMsg⟩ else Except.ok i
  | Option.none => Except.error ⟨maxDepthTypeMsg⟩

/-- `validate_config` (main.py lines 48-90).  The presence loop over
`EXPECTED_KEYS` raises at the first key not in `cfg`; then the five field
checks run in source order.  Note the translation mirrors the source
faithfully in that the validated dict receives `package_name`, `repo`,
`test_mode` and `max_depth` but `version` is only checked, never inserted
(there is no `validated["version"] = ...` line in the source). -/
def validate_config (cfg : PyDict) : Except ConfigError PyDict :=
  match EXPECTED_KEYS.find? (fun key => (dictLookup cfg key).isNone) with
  | some key => Except.error ⟨missingFieldMsg key⟩
  | Option.none =>
  match checkNonemptyString (getItem cfg "package_name") pnameMsg with
  | Except.error e => Except.error e
  | Except.ok pn =>
  match checkNonemptyString (getItem cfg "repo") repoMsg with
  | Except.error e => Except.error e
  | Except.ok repo =>
  match coerce_bool (getItem cfg "test_mode") with
  | Except.error e => Except.error ⟨"test_mode: " ++ e.msg⟩
  | Except.ok tm =>
  match checkNonemptyString (getItem cfg "version") versionMsg with
  | Except.error e => Except.error e
  | Except.ok _ =>
  match coerce_max_depth (getItem cfg "max_depth") with
  | Except.error e => Except.error e
  | Except.ok mdInt =>
    Except.ok [("package_name", PyVal.str pn), ("repo", PyVal.str repo),
               ("test_mode", PyVal.bool tm), ("max_depth", PyVal.int mdInt)]

/-- `print_kv` (lines 93-95): the stdout lines it prints, one `key=value`
line per entry in dict order. -/
def print_kv (cfg : PyDict) : List String :=
  cfg.map (fun kv => kv.1 ++ "=" ++ pyStr kv.2)

/-- What the file system and `json.load` yield for the config path: the
path may not exist, the contents may fail to parse, or parsing yields a
value.  This is the abstraction boundary of the embedding. -/
inductive FileInput : Type where
  | noFile : FileInput
  | badJson : String → FileInput
  | parsed : PyVal → FileInput

/-- `load_json` (lines 21-31): missing path, JSON decode failure and
non-dict root each raise a `ConfigError`; a dict root is returned. -/
def load_json (path : String) (input : FileInput) : Except ConfigError PyDict :=
  match input with
  | FileInput.noFile =>
      Except.error ⟨"Файл конфигурации не найден: " ++ path⟩
  | FileInput.badJson m =>
      Except.error ⟨"Ошибка разбора JSON: " ++ m⟩
  | FileInput.parsed v =>
      match v with
      | PyVal.dict kvs => Except.ok kvs
      | _ => Except.error
          ⟨"Ожидается JSON-объект (словарь) в корне файла конфигурации."⟩

/-- An exception reaching `main`'s handlers: either a `ConfigError` or any
other Python exception (carrying its message). -/
inductive PyErr : Type where
  | config : ConfigError → PyErr
  | other : String → PyErr
deriving Repr, DecidableEq

/-- Observable outcome of a program run: exit code, stdout lines, stderr
lines. -/
structure RunResult : Type where
  exitCode : Nat
  stdoutLines : List String
  stderrLines : List String
deriving Repr, DecidableEq

/-- The try/except of `main` (lines 108-118): a `ConfigError` prints the
localized line to stderr and exits 2; any other exception prints the
generic line and exits 3; otherwise `print_kv` runs and the process ends
with exit code 0. -/
def mainOn : Except PyErr PyDict → RunResult
  | Except.error (PyErr.config e) =>
      ⟨2, [], ["Ошибка конфигурации: " ++ e.msg]⟩
  | Except.error (PyErr.other m) =>
      ⟨3, [], ["Неожиданная ошибка: " ++ m]⟩
  | Except.ok cfg => ⟨0, print_kv cfg, []⟩

/-- The body of the try block: `load_json` then `validate_config`, with
their raises tagged as `ConfigError`s. -/
def loadAndValidate (path : String) (input : FileInput) : Except PyErr PyDict :=
  match load_json path input with
  | Except.error e => Except.error (PyErr.config e)
  | Except.ok raw =>
      match validate_config raw with
      | Except.error e => Except.error (PyErr.config e)
      | Except.ok cfg => Except.ok cfg

/-- `main` (lines 104-118) as a function of the config path and of what
the file system holds at it. -/
def main (path : String) (input : FileInput) : RunResult :=
  mainOn (loadAndValidate path input)

/-- The raw config of the spec's end-to-end scenario. -/
def scenarioRaw : PyDict :=
  [("package_name", PyVal.str " pkg "), ("repo", PyVal.str "https://x"),
   ("test_mode", PyVal.str "yes"), ("version", PyVal.str "1.0"),
   ("max_depth", PyVal.str "4")]

/-- A valid raw config (all five checks pass) used to exhibit what happens
to the `version` entry. -/
def c3Raw : PyDict :=
  [("package_name", PyVal.str " a "), ("repo", PyVal.str " r "),
   ("test_mode", PyVal.bool true), ("version", PyVal.str " 9.9 "),
   ("max_depth", PyVal.int 2)]

/-- `c3Raw` with a non-string `version`. -/
def c3RawBadType : PyDict :=
  [("package_name", PyVal.str " a "), ("repo", PyVal.str " r "),
   ("test_mode", PyVal.bool true), ("version", PyVal.int 7),
   ("max_depth", PyVal.int 2)]

/-- `c3Raw` with a whitespace-only `version`. -/
def c3RawEmpty : PyDict :=
  [("package_name", PyVal.str " a "), ("repo", PyVal.str " r "),
   ("test_mode", PyVal.bool true), ("version", PyVal.str "   "),
   ("max_depth", PyVal.int 2)]

/- ------------------------------------------------------------------ -/
/- Helper lemmas                                                      -/
/- ------------------------------------------------------------------ -/

theorem find?_eq_some_split {α : Type} (p : α → Bool) :
    ∀ (l : List α) (b : α), l.find? p = some b →
      ∃ l1 l2, l = l1 ++ b :: l2 ∧ (∀ x ∈ l1, p x = false) ∧ p b = true := by
  intro l
  induction l with
  | nil => intro b h; cases h
  | cons a as ih =>
    intro b h
    by_cases hpa : p a = true
    · rw [List.find?_cons_of_pos _ hpa] at h
      cases h
      refine ⟨[], as, rfl, ?_, hpa⟩
      intro x hx
      cases hx
    · rw [List.find?_cons_of_neg _ (by simpa using hpa)] at h
      obtain ⟨l1, l2, heq, hl1, hb⟩ := ih b h
      refine ⟨a :: l1, l2, by simp [heq], ?_, hb⟩
      intro x hx
      rcases List.mem_cons.mp hx with hx | hx
      · subst hx; simpa using hpa
      · exact hl1 x hx

theorem find?_isSome_of_mem {α : Type} (p : α → Bool) (l : List α) (a : α)
    (ha : a ∈ l) (hpa : p a = true) : ∃ b, l.find? p = some b := by
  cases hf : l.find? p with
  | some b => exact ⟨b, rfl⟩
  | none =>
    have := List.find?_eq_none.mp hf a ha
    exact absurd hpa this

/- ------------------------------------------------------------------ -/
/- Claim theorems                                                     -/
/- ------------------------------------------------------------------ -/

/-- C1: the spec claims that when all five field checks succeed,
`validate_config` returns a mapping with exactly five entries, among them
`version`.  On the spec's own scenario input every check succeeds, the
strings are trimmed and `test_mode`/`max_depth` are coerced — but the
result holds exactly FOUR entries and no `version` key: the source
checks `version` and never inserts it into `validated`. -/
theorem validate_config_scenario_drops_version :
    validate_config scenarioRaw =
      Except.ok [("package_name", PyVal.str "pkg"), ("repo", PyVal.str "https://x"),
                 ("test_mode", PyVal.bool true), ("max_depth", PyVal.int 4)] ∧
    (validate_config scenarioRaw).toOption.map List.length = some 4 ∧
    ((validate_config scenarioRaw).toOption.bind
        (fun out => dictLookup out "version")) = Option.none ∧
    ((validate_config scenarioRaw).toOption.bind
        (fun out => dictLookup out "package_name")) = some (PyVal.str "pkg") :=
  ⟨rfl, rfl, rfl, rfl⟩

/-- C2: on the spec's scenario config the program exits with code 0 but
prints only FOUR lines, in order `package_name=pkg`, `repo=https://x`,
`test_mode=True`, `max_depth=4`; the claimed line `version=1.0` is never
printed because `validate_config` drops the `version` entry. -/
theorem main_scenario_output :
    main "config.json" (FileInput.parsed (PyVal.dict scenarioRaw)) =
      ⟨0, ["package_name=pkg", "repo=https://x", "test_mode=True", "max_depth=4"], []⟩ :=
  rfl

/-- C3: for `package_name` and `repo` the trimmed string is indeed stored,
and for all three string fields a non-string or whitespace-only value
fails with the field's error; but the third part of the claim fails for
`version`: on a fully valid config the returned mapping has NO `version`
key at all (the source validates `version` and never stores it). -/
theorem validate_config_version_not_stored :
    ((validate_config c3Raw).toOption.bind
        (fun out => dictLookup out "version")) = Option.none ∧
    ((validate_config c3Raw).toOption.bind
        (fun out => dictLookup out "package_name")) = some (PyVal.str "a") ∧
    ((validate_config c3Raw).toOption.bind
        (fun out => dictLookup out "repo")) = some (PyVal.str "r") ∧
    validate_config c3RawBadType = Except.error ⟨versionMsg⟩ ∧
    validate_config c3RawEmpty = Except.error ⟨versionMsg⟩ :=
  ⟨rfl, rfl, rfl, rfl, rfl⟩

/-- C10: a JSON boolean reaching the `max_depth` coercion is accepted by
the numeric branch (Python `bool` is an `int`): `true` coerces to the
integer 1 and the field check succeeds, while `false` coerces to 0 and
fails the `>= 1` bound with the range message (not the shape message). -/
theorem max_depth_bool_accepted :
    coerce_max_depth (PyVal.bool true) = Except.ok 1 ∧
    coerce_max_depth (PyVal.bool false) = Except.error ⟨maxDepthRangeMsg⟩ ∧
    validate_config
        [("package_name", PyVal.str "p"), ("repo", PyVal.str "r"),
         ("test_mode", PyVal.bool false), ("version", PyVal.str "v"),
         ("max_depth", PyVal.bool true)] =
      Except.ok [("package_name", PyVal.str "p"), ("repo", PyVal.str "r"),
                 ("test_mode", PyVal.bool false), ("max_depth", PyVal.int 1)] ∧
    validate_config
        [("package_name", PyVal.str "p"), ("repo", PyVal.str "r"),
         ("test_mode", PyVal.bool false), ("version", PyVal.str "v"),
         ("max_depth", PyVal.bool false)] =
      Except.error ⟨maxDepthRangeMsg⟩ :=
  ⟨rfl, rfl, rfl, rfl⟩

/-- C4: the presence loop runs before any type/value check and scans
`EXPECTED_KEYS` in order.  Whenever some required key is missing — no
matter how malformed the present values are — `validate_config` raises
the missing-field error for the FIRST missing key in that order (every
key before it in `EXPECTED_KEYS` is present), the message spells out that
key, and `main` maps the failure to exit code 2 with that single stderr
line. -/
theorem presence_checked_first (path : String) (cfg : PyDict) (k : String)
    (hk : k ∈ EXPECTED_KEYS) (hmiss : dictLookup cfg k = Option.none) :
    ∃ k1 l1 l2, EXPECTED_KEYS = l1 ++ k1 :: l2 ∧
      (∀ j ∈ l1, (dictLookup cfg j).isSome = true) ∧
      dictLookup cfg k1 = Option.none ∧
      validate_config cfg = Except.error ⟨missingFieldMsg k1⟩ ∧
      missingFieldMsg k1 = "Отсутствует обязательный параметр: \x27" ++ k1 ++ "\x27" ∧
      main path (FileInput.parsed (PyVal.dict cfg)) =
        ⟨2, [], ["Ошибка конфигурации: " ++ missingFieldMsg k1]⟩ := by
  obtain ⟨k1, hf⟩ :=
    find?_isSome_of_mem (fun key => (dictLookup cfg key).isNone) EXPECTED_KEYS k hk
      (by simp [hmiss])
  obtain ⟨l1, l2, heq, hl1, hpk1⟩ := find?_eq_some_split _ _ _ hf
  have hval : validate_config cfg = Except.error ⟨missingFieldMsg k1⟩ := by
    unfold validate_config
    rw [hf]
  refine ⟨k1, l1, l2, heq, ?_, ?_, hval, rfl, ?_⟩
  · intro j hj
    have hpj := hl1 j hj
    cases hdj : dictLookup cfg j with
    | none => rw [hdj] at hpj; simp at hpj
    | some v => simp
  · have := hpk1
    simpa using this
  · show mainOn (loadAndValidate path (FileInput.parsed (PyVal.dict cfg))) = _
    simp only [loadAndValidate, load_json, hval]
    rfl

/-- Witness for C4 at a concrete input: the config holds only a malformed
`package_name`; the reported error is still the presence error, for
`repo`, the first missing key. -/
theorem presence_checked_first_witness :
    ∃ k1 l1 l2, EXPECTED_KEYS = l1 ++ k1 :: l2 ∧
      (∀ j ∈ l1, (dictLookup [("package_name", PyVal.int 5)] j).isSome = true) ∧
      dictLookup [("package_name", PyVal.int 5)] k1 = Option.none ∧
      validate_config [("package_name", PyVal.int 5)] =
        Except.error ⟨missingFieldMsg k1⟩ ∧
      missingFieldMsg k1 = "Отсутствует обязательный параметр: \x27" ++ k1 ++ "\x27" ∧
      main "config.json" (FileInput.parsed (PyVal.dict [("package_name", PyVal.int 5)])) =
        ⟨2, [], ["Ошибка конфигурации: " ++ missingFieldMsg k1]⟩ :=
  presence_checked_first "config.json" [("package_name", PyVal.int 5)] "repo"
    (by decide) rfl

/-- C5: the `max_depth` coercion accepts an int (always an integral
number), a float exactly when its value is integral, and a string exactly
when its strip is digit-only; every other shape fails with the shape
error; an accepted value below 1 fails with the range error; in
particular `"3"`, `3`, `3.0` all yield the integer 3 while `3.5`,
`"3.5"`, `"abc"`, `0`, `-1` all fail. -/
theorem max_depth_coercion_spec :
    (∀ n : Int, 1 ≤ n → coerce_max_depth (PyVal.int n) = Except.ok n) ∧
    (∀ n : Int, n < 1 →
        coerce_max_depth (PyVal.int n) = Except.error ⟨maxDepthRangeMsg⟩) ∧
    (∀ q : Rat, q.den = 1 → 1 ≤ q.num →
        coerce_max_depth (PyVal.float q) = Except.ok q.num) ∧
    (∀ q : Rat, q.den ≠ 1 →
        coerce_max_depth (PyVal.float q) = Except.error ⟨maxDepthTypeMsg⟩) ∧
    (∀ s : String, pyIsdigit (pyStrip s) = false →
        coerce_max_depth (PyVal.str s) = Except.error ⟨maxDepthTypeMsg⟩) ∧
    (∀ s : String, pyIsdigit (pyStrip s) = true → 1 ≤ digitStrToNat (pyStrip s) →
        coerce_max_depth (PyVal.str s) =
          Except.ok ((digitStrToNat (pyStrip s) : Int))) ∧
    coerce_max_depth PyVal.null = Except.error ⟨maxDepthTypeMsg⟩ ∧
    (∀ xs, coerce_max_depth (PyVal.list xs) = Except.error ⟨maxDepthTypeMsg⟩) ∧
    (∀ kvs, coerce_max_depth (PyVal.dict kvs) = Except.error ⟨maxDepthTypeMsg⟩) ∧
    coerce_max_depth (PyVal.str "3") = Except.ok 3 ∧
    coerce_max_depth (PyVal.int 3) = Except.ok 3 ∧
    coerce_max_depth (PyVal.float (mkRat 3 1)) = Except.ok 3 ∧
    coerce_max_depth (PyVal.float (mkRat 7 2)) = Except.error ⟨maxDepthTypeMsg⟩ ∧
    coerce_max_depth (PyVal.str "3.5") = Except.error ⟨maxDepthTypeMsg⟩ ∧
    coerce_max_depth (PyVal.str "abc") = Except.error ⟨maxDepthTypeMsg⟩ ∧
    coerce_max_depth (PyVal.int 0) = Except.error ⟨maxDepthRangeMsg⟩ ∧
    coerce_max_depth (PyVal.int (-1)) = Except.error ⟨maxDepthRangeMsg⟩ := by
  refine ⟨?_, ?_, ?_, ?_, ?_, ?_, rfl, fun xs => rfl, fun kvs => rfl,
          rfl, rfl, rfl, rfl, rfl, rfl, rfl, rfl⟩
  · intro n hn
    show (if n < 1 then Except.error (⟨maxDepthRangeMsg⟩ : ConfigError)
          else Except.ok n) = Except.ok n
    rw [if_neg (by omega)]
  · intro n hn
    show (if n < 1 then Except.error (⟨maxDepthRangeMsg⟩ : ConfigError)
          else Except.ok n) = Except.error ⟨maxDepthRangeMsg⟩
    rw [if_pos hn]
  · intro q hden hnum
    have hm : maxDepthCoerce (PyVal.float q) = some q.num := by
      simp [maxDepthCoerce, hden]
    simp only [coerce_max_depth, hm]
    rw [if_neg (by omega)]
  · intro q hden
    have hm : maxDepthCoerce (PyVal.float q) = Option.none := by
      simp [maxDepthCoerce, hden]
    simp only [coerce_max_depth, hm]
  · intro s hs
    have hm : maxDepthCoerce (PyVal.str s) = Option.none := by
      simp [maxDepthCoerce, hs]
    simp only [coerce_max_depth, hm]
  · intro s hs hval
    have hm : maxDepthCoerce (PyVal.str s) =
        some ((digitStrToNat (pyStrip s) : Int)) := by
      simp [maxDepthCoerce, hs]
    simp only [coerce_max_depth, hm]
    rw [if_neg (by omega)]

/-- Witness for C5 at concrete inputs, the hypotheses discharged there. -/
theorem max_depth_coercion_spec_witness :
    coerce_max_depth (PyVal.int 5) = Except.ok 5 ∧
    coerce_max_depth (PyVal.int (-7)) = Except.error ⟨maxDepthRangeMsg⟩ ∧
    coerce_max_depth (PyVal.float (mkRat 9 4)) = Except.error ⟨maxDepthTypeMsg⟩ ∧
    coerce_max_depth (PyVal.str " 12 ") = Except.ok 12 := by
  obtain ⟨h1, h2, -, h4, -, h6, -⟩ := max_depth_coercion_spec
  refine ⟨h1 5 (by omega), h2 (-7) (by omega), h4 (mkRat 9 4) (by decide), ?_⟩
  exact (h6 " 12 " rfl (by decide)).trans rfl

/-- C6: `coerce_bool` passes a native bool through, maps an int or float
by the nonzero test, maps a stripped lowercased string among
true/yes/1 to true and among false/no/0 to false, and fails on every
other string and every other shape; in particular "YES" → true,
"0" → false, 1 → true, 0 → false and "maybe" fails. -/
theorem coerce_bool_spec :
    (∀ b, coerce_bool (PyVal.bool b) = Except.ok b) ∧
    (∀ n : Int, coerce_bool (PyVal.int n) = Except.ok (decide (n ≠ 0))) ∧
    (∀ q : Rat, coerce_bool (PyVal.float q) = Except.ok (decide (q ≠ 0))) ∧
    (∀ s, (pyLower (pyStrip s) = "true" ∨ pyLower (pyStrip s) = "yes" ∨
           pyLower (pyStrip s) = "1") →
        coerce_bool (PyVal.str s) = Except.ok true) ∧
    (∀ s, (pyLower (pyStrip s) = "false" ∨ pyLower (pyStrip s) = "no" ∨
           pyLower (pyStrip s) = "0") →
        coerce_bool (PyVal.str s) = Except.ok false) ∧
    (∀ s, pyLower (pyStrip s) ≠ "true" → pyLower (pyStrip s) ≠ "yes" →
          pyLower (pyStrip s) ≠ "1" → pyLower (pyStrip s) ≠ "false" →
          pyLower (pyStrip s) ≠ "no" → pyLower (pyStrip s) ≠ "0" →
        coerce_bool (PyVal.str s) = Except.error ⟨boolErrMsg (PyVal.str s)⟩) ∧
    coerce_bool PyVal.null = Except.error ⟨boolErrMsg PyVal.null⟩ ∧
    (∀ xs, coerce_bool (PyVal.list xs) = Except.error ⟨boolErrMsg (PyVal.list xs)⟩) ∧
    (∀ kvs, coerce_bool (PyVal.dict kvs) =
        Except.error ⟨boolErrMsg (PyVal.dict kvs)⟩) ∧
    coerce_bool (PyVal.str "YES") = Except.ok true ∧
    coerce_bool (PyVal.str "0") = Except.ok false ∧
    coerce_bool (PyVal.int 1) = Except.ok true ∧
    coerce_bool (PyVal.int 0) = Except.ok false ∧
    coerce_bool (PyVal.str "maybe") = Except.error ⟨boolErrMsg (PyVal.str "maybe")⟩ := by
  refine ⟨fun b => rfl, fun n => rfl, fun q => rfl, ?_, ?_, ?_,
          rfl, fun xs => rfl, fun kvs => rfl, rfl, rfl, rfl, rfl, rfl⟩
  · intro s hs
    rcases hs with h | h | h <;> simp [coerce_bool, h]
  · intro s hs
    rcases hs with h | h | h <;> simp [coerce_bool, h]
  · intro s n1 n2 n3 n4 n5 n6
    simp [coerce_bool, n1, n2, n3, n4, n5, n6]

/-- Witness for C6 at concrete strings, the hypotheses discharged there. -/
theorem coerce_bool_spec_witness :
    coerce_bool (PyVal.str " TrUe ") = Except.ok true ∧
    coerce_bool (PyVal.str "No") = Except.ok false ∧
    coerce_bool (PyVal.str "maybe not") =
      Except.error ⟨boolErrMsg (PyVal.str "maybe not")⟩ := by
  obtain ⟨-, -, -, h4, h5, h6, -⟩ := coerce_bool_spec
  exact ⟨h4 " TrUe " (Or.inl rfl), h5 "No" (Or.inr (Or.inl rfl)),
         h6 "maybe not" (by decide) (by decide) (by decide) (by decide)
           (by decide) (by decide)⟩

/-- C7: `load_json` succeeds with exactly the parsed object when the path
exists, the content parses and the root is an object, and fails in each
of the three remaining situations with the corresponding error. -/
theorem load_json_spec (path : String) :
    (∀ input kvs, load_json path input = Except.ok kvs ↔
        input = FileInput.parsed (PyVal.dict kvs)) ∧
    load_json path FileInput.noFile =
      Except.error ⟨"Файл конфигурации не найден: " ++ path⟩ ∧
    (∀ m, load_json path (FileInput.badJson m) =
        Except.error ⟨"Ошибка разбора JSON: " ++ m⟩) ∧
    (∀ v, (∀ kvs, v ≠ PyVal.dict kvs) →
        load_json path (FileInput.parsed v) =
          Except.error ⟨"Ожидается JSON-объект (словарь) в корне файла конфигурации."⟩) := by
  refine ⟨?_, rfl, fun m => rfl, ?_⟩
  · intro input kvs
    constructor
    · intro h
      cases input with
      | noFile => cases h
      | badJson m => cases h
      | parsed v =>
        cases v with
        | dict kvs2 =>
          have h2 : Except.ok (ε := ConfigError) kvs2 = Except.ok kvs := h
          injection h2 with h3
          rw [h3]
        | null => cases h
        | bool b => cases h
        | int n => cases h
        | float q => cases h
        | str s => cases h
        | list xs => cases h
    · intro h
      subst h
      rfl
  · intro v hv
    cases v with
    | dict kvs => exact absurd rfl (hv kvs)
    | null => rfl
    | bool b => rfl
    | int n => rfl
    | float q => rfl
    | str s => rfl
    | list xs => rfl

/-- Witness for C7: the success case at a one-entry object and the
shape-error case at the root-level array `[1,2,3]`. -/
theorem load_json_spec_witness :
    load_json "cfg.json" (FileInput.parsed (PyVal.dict [("a", PyVal.int 1)])) =
      Except.ok [("a", PyVal.int 1)] ∧
    load_json "cfg.json"
        (FileInput.parsed (PyVal.list [PyVal.int 1, PyVal.int 2, PyVal.int 3])) =
      Except.error ⟨"Ожидается JSON-объект (словарь) в корне файла конфигурации."⟩ := by
  obtain ⟨h1, -, -, h4⟩ := load_json_spec "cfg.json"
  refine ⟨(h1 _ [("a", PyVal.int 1)]).mpr rfl, h4 _ ?_⟩
  intro kvs h
  cases h

/-- C8: the driver maps a ConfigError to exit code 2 with the single
localized stderr line, any other exception to exit code 3 with the
generic line, and success to exit code 0 with the key=value lines of the
validated config; and the load+validate pipeline itself only ever yields
a ConfigError or a success, each mapped accordingly by `main`. -/
theorem main_exit_codes :
    (∀ e, mainOn (Except.error (PyErr.config e)) =
        ⟨2, [], ["Ошибка конфигурации: " ++ e.msg]⟩) ∧
    (∀ m, mainOn (Except.error (PyErr.other m)) =
        ⟨3, [], ["Неожиданная ошибка: " ++ m]⟩) ∧
    (∀ cfg, mainOn (Except.ok cfg) = ⟨0, print_kv cfg, []⟩) ∧
    (∀ path input,
        (∃ e, loadAndValidate path input = Except.error (PyErr.config e)) ∨
        (∃ cfg, loadAndValidate path input = Except.ok cfg)) ∧
    (∀ path input e, loadAndValidate path input = Except.error (PyErr.config e) →
        main path input = ⟨2, [], ["Ошибка конфигурации: " ++ e.msg]⟩) ∧
    (∀ path input cfg, loadAndValidate path input = Except.ok cfg →
        main path input = ⟨0, print_kv cfg, []⟩) := by
  refine ⟨fun e => rfl, fun m => rfl, fun cfg => rfl, ?_, ?_, ?_⟩
  · intro path input
    cases hl : load_json path input with
    | error e => exact Or.inl ⟨e, by simp [loadAndValidate, hl]⟩
    | ok raw =>
      cases hv : validate_config raw with
      | error e => exact Or.inl ⟨e, by simp [loadAndValidate, hl, hv]⟩
      | ok cfg => exact Or.inr ⟨cfg, by simp [loadAndValidate, hl, hv]⟩
  · intro path input e h
    show mainOn (loadAndValidate path input) = _
    rw [h]
    rfl
  · intro path input cfg h
    show mainOn (loadAndValidate path input) = _
    rw [h]
    rfl

/-- Witness for C8: a missing file at a concrete path exits with code 2
and the localized line. -/
theorem main_exit_codes_witness :
    main "nope.json" FileInput.noFile =
      ⟨2, [], ["Ошибка конфигурации: " ++ "Файл конфигурации не найден: nope.json"]⟩ := by
  obtain ⟨-, -, -, -, h5, -⟩ := main_exit_codes
  exact h5 "nope.json" FileInput.noFile ⟨"Файл конфигурации не найден: nope.json"⟩ rfl

/-- C9: `validate_config` reads nothing but the five required keys: two
raw configs that agree on the lookups of those keys — whatever extra
keys either of them carries — validate to identical results, success or
error alike. -/
theorem validate_config_extra_keys_ignored (cfg1 cfg2 : PyDict)
    (h : ∀ k ∈ EXPECTED_KEYS, dictLookup cfg1 k = dictLookup cfg2 k) :
    validate_config cfg1 = validate_config cfg2 := by
  have h1 := h "package_name" (by simp [EXPECTED_KEYS])
  have h2 := h "repo" (by simp [EXPECTED_KEYS])
  have h3 := h "test_mode" (by simp [EXPECTED_KEYS])
  have h4 := h "version" (by simp [EXPECTED_KEYS])
  have h5 := h "max_depth" (by simp [EXPECTED_KEYS])
  unfold validate_config getItem
  rw [show EXPECTED_KEYS.find? (fun key => (dictLookup cfg1 key).isNone) =
        EXPECTED_KEYS.find? (fun key => (dictLookup cfg2 key).isNone) from by
      simp only [EXPECTED_KEYS, List.find?]
      rw [h1, h2, h3, h4, h5]]
  rw [h1, h2, h3, h4, h5]

/-- Witness for C9: the same five bindings with and without extra keys
around them validate identically. -/
theorem validate_config_extra_keys_ignored_witness :
    validate_config
        [("package_name", PyVal.str "p"), ("repo", PyVal.str "r"),
         ("test_mode", PyVal.int 1), ("version", PyVal.str "v"),
         ("max_depth", PyVal.int 3)] =
      validate_config
        [("extra", PyVal.list []), ("package_name", PyVal.str "p"),
         ("repo", PyVal.str "r"), ("test_mode", PyVal.int 1),
         ("version", PyVal.str "v"), ("max_depth", PyVal.int 3),
         ("another", PyVal.null)] :=
  validate_config_extra_keys_ignored _ _ (by
    intro k hk
    simp only [EXPECTED_KEYS] at hk
    fin_cases hk <;> rfl)

end ConfUpr
